import Mathlib

/-!
# Chatmate route handler — shallow embedding

This file embeds the conversational engine of the Chatmate repository
(the route handler exported from the repository's single logic module:
`sanitize`, `buildIdeasResponse`, `buildPlanResponse`,
`summarizeConversation`, `buildResponse` and the `POST` endpoint) as
executable Lean definitions, and proves the specification claims about
them.

Modelling conventions:
* JavaScript strings are modelled as Lean `String` (a list of
  characters); the character class `\s` and `String.prototype.trim`
  are modelled over the ASCII whitespace characters, and
  `toLowerCase` over ASCII letters.
* The regex predicates of `buildResponse` are alternations of literal
  words, optionally anchored by `\b` on either side (plus one optional
  `\s?` and two optional-suffix groups, which are expanded into the
  equivalent finite lists of literal alternatives).  They are embedded
  by an executable matcher `testAlts` that searches every position of
  the subject string.
* `String.prototype.replace(/k1|k2|.../gi, "")` (used by the two
  focus extractors) is embedded by `removeAllCI`, the left-to-right
  single-pass removal of the first alternative matching at each
  position, exactly as the JavaScript global replace proceeds.
* The wall-clock rendering used by the time branch
  (`toLocaleTimeString`) is passed in as an explicit `now : String`
  parameter; it is the single non-deterministic input of the handler.
* The endpoint's JSON payload is modelled by the inductive `JsonValue`
  (the possible results of `JSON.parse`), and JavaScript property
  access — which throws on `null` — together with the route's
  `try/catch` are modelled in the `Except Unit` monad.
-/

set_option maxRecDepth 40000

namespace Chatmate

/-! ## Characters and whitespace -/

/-- ASCII model of the JavaScript `\s` character class
(space, tab, line feed, carriage return, vertical tab, form feed). -/
def isWs (c : Char) : Bool :=
  c == ' ' || c == '\t' || c == '\n' || c == '\r' || c == '\x0b' || c == '\x0c'

/-- The JavaScript `\w` class, which `\b` is defined from: `[A-Za-z0-9_]`. -/
def isWordChar (c : Char) : Bool :=
  ('a' ≤ c && c ≤ 'z') || ('A' ≤ c && c ≤ 'Z') || ('0' ≤ c && c ≤ '9') || c == '_'

/-- ASCII model of `String.prototype.toLowerCase` on one character. -/
def lowerChar (c : Char) : Char :=
  if 'A' ≤ c && c ≤ 'Z' then Char.ofNat (c.toNat + 32) else c

/-- ASCII model of `String.prototype.toLowerCase`. -/
def lowerStr (s : String) : String :=
  ⟨s.data.map lowerChar⟩

/-- `String.prototype.trim`: drop whitespace from both ends. -/
def trimWs (l : List Char) : List Char :=
  ((l.dropWhile isWs).reverse.dropWhile isWs).reverse

/-- `replace(/\s+/g, " ")`: every maximal whitespace run becomes one space. -/
def collapseWs : List Char → List Char
  | [] => []
  | [c] => if isWs c then [' '] else [c]
  | c₁ :: c₂ :: rest =>
    if isWs c₁ then
      if isWs c₂ then collapseWs (c₂ :: rest)
      else ' ' :: collapseWs (c₂ :: rest)
    else c₁ :: collapseWs (c₂ :: rest)

/-- Source: `const sanitize = (value) => value.trim().replace(/\s+/g, " ");`. -/
def sanitize (value : String) : String :=
  ⟨collapseWs (trimWs value.data)⟩

/-- `String.prototype.includes`: `needle` occurs as a contiguous run. -/
def containsList (needle : List Char) : List Char → Bool
  | [] => needle.isEmpty
  | c :: rest => needle.isPrefixOf (c :: rest) || containsList needle rest

/-- `s.includes(sub)` on strings. -/
def strIncludes (s sub : String) : Bool :=
  containsList sub.data s.data

/-! ## The regex word tests

Each dispatch regex of `buildResponse` is an alternation of literal
words; an alternative optionally requires a word boundary `\b` on its
left and/or right end. -/

/-- One literal alternative of a dispatch regex. -/
structure Alt where
  lb : Bool
  lit : List Char
  rb : Bool

/-- Whether an optional character is a word character (`\b` looks at
both neighbours; outside the string counts as non-word). -/
def wordAt : Option Char → Bool
  | some c => isWordChar c
  | none => false

/-- A `\b` boundary holds between two (optional) characters when
exactly one side is a word character. -/
def boundaryOk (a b : Option Char) : Bool :=
  wordAt a != wordAt b

/-- Does alternative `a` match at the head of `s`, where `prev` is the
character immediately before this position? -/
def matchAlt (prev : Option Char) (a : Alt) (s : List Char) : Bool :=
  a.lit.isPrefixOf s
    && (!a.lb || boundaryOk prev a.lit.head?)
    && (!a.rb || boundaryOk a.lit.getLast? (s.drop a.lit.length).head?)

/-- Scan every position of the subject for a matching alternative. -/
def scanAlts (alts : List Alt) : Option Char → List Char → Bool
  | prev, [] => alts.any fun a => matchAlt prev a []
  | prev, c :: rest =>
    (alts.any fun a => matchAlt prev a (c :: rest)) || scanAlts alts (some c) rest

/-- `regex.test(s)` for an alternation of literal word alternatives. -/
def testAlts (alts : List Alt) (s : String) : Bool :=
  scanAlts alts none s.data

/-- An alternative bounded by `\b` on both sides. -/
def wb (w : String) : Alt :=
  ⟨true, w.data, true⟩

/-- The whitespace characters a `\s?` can consume (ASCII model). -/
def wsChars : List Char := [' ', '\t', '\n', '\r', '\x0b', '\x0c']

/-- The expansions of `good\s?(morning|afternoon|evening)` for one tail. -/
def goodAlts (tail : String) : List Alt :=
  ⟨true, ("good" ++ tail).data, true⟩ ::
    wsChars.map fun c => ⟨true, "good".data ++ c :: tail.data, true⟩

/-- `/\b(hello|hey|hi|good\s?(morning|afternoon|evening))\b/`. -/
def greetingAlts : List Alt :=
  [wb "hello", wb "hey", wb "hi"] ++
    goodAlts "morning" ++ goodAlts "afternoon" ++ goodAlts "evening"

/-- `/\b(thank(s| you)|appreciate|great job|awesome)\b/` or `/\bthanks?\b/`
(the optional groups expanded into literal alternatives). -/
def thanksAlts : List Alt :=
  [wb "thanks", wb "thank you", wb "appreciate", wb "great job", wb "awesome", wb "thank"]

/-- `/\b(bye|goodbye|see you|later)\b/`. -/
def farewellAlts : List Alt :=
  [wb "bye", wb "goodbye", wb "see you", wb "later"]

/-- `/\b(who are you|what are you|introduce yourself)\b/`. -/
def identityAlts : List Alt :=
  [wb "who are you", wb "what are you", wb "introduce yourself"]

/-- `/\b(plan|schedule|timeline|roadmap)\b/`. -/
def planAlts : List Alt :=
  [wb "plan", wb "schedule", wb "timeline", wb "roadmap"]

/-- `/\bidea|ideas|brainstorm|concept\b/` — no group, so `\b` anchors
only the first alternative on the left and the last on the right. -/
def ideaAlts : List Alt :=
  [⟨true, "idea".data, false⟩, ⟨false, "ideas".data, false⟩,
    ⟨false, "brainstorm".data, false⟩, ⟨false, "concept".data, true⟩]

/-- `/\b(joke|funny|laugh)\b/`. -/
def jokeAlts : List Alt :=
  [wb "joke", wb "funny", wb "laugh"]

/-- `/\b(weather|temperature|outside)\b/`. -/
def weatherAlts : List Alt :=
  [wb "weather", wb "temperature", wb "outside"]

/-- `/\btime\b/`. -/
def timeAlts : List Alt :=
  [wb "time"]

/-- `/\b(explain|teach|learn|understand)\b/`. -/
def explainAlts : List Alt :=
  [wb "explain", wb "teach", wb "learn", wb "understand"]

/-- `/\bsummary|summarize|recap\b/` — again an ungrouped alternation. -/
def summaryAlts : List Alt :=
  [⟨true, "summary".data, false⟩, ⟨false, "summarize".data, false⟩,
    ⟨false, "recap".data, true⟩]

/-! The eleven ordered dispatch predicates, each applied to the
lower-cased input (`const normalized = prompt.toLowerCase()`). -/

/-- Greeting predicate on the raw input. -/
def greetingMatch (text : String) : Bool := testAlts greetingAlts (lowerStr text)

/-- Thanks predicate on the raw input. -/
def thanksMatch (text : String) : Bool := testAlts thanksAlts (lowerStr text)

/-- Farewell predicate on the raw input. -/
def farewellMatch (text : String) : Bool := testAlts farewellAlts (lowerStr text)

/-- Identity predicate on the raw input. -/
def identityMatch (text : String) : Bool := testAlts identityAlts (lowerStr text)

/-- Plan predicate on the raw input. -/
def planMatch (text : String) : Bool := testAlts planAlts (lowerStr text)

/-- Idea predicate on the raw input. -/
def ideaMatch (text : String) : Bool := testAlts ideaAlts (lowerStr text)

/-- Joke predicate on the raw input. -/
def jokeMatch (text : String) : Bool := testAlts jokeAlts (lowerStr text)

/-- Weather predicate on the raw input. -/
def weatherMatch (text : String) : Bool := testAlts weatherAlts (lowerStr text)

/-- Time predicate on the raw input. -/
def timeMatch (text : String) : Bool := testAlts timeAlts (lowerStr text)

/-- Explain predicate on the raw input. -/
def explainMatch (text : String) : Bool := testAlts explainAlts (lowerStr text)

/-- Summary predicate on the raw input. -/
def summaryMatch (text : String) : Bool := testAlts summaryAlts (lowerStr text)

/-- `normalized.includes("expand")` on the raw input. -/
def expandMention (text : String) : Bool := strIncludes (lowerStr text) "expand"

/-- None of the eleven regex predicates fires on this input. -/
def noneOfEleven (text : String) : Bool :=
  !greetingMatch text && !thanksMatch text && !farewellMatch text &&
    !identityMatch text && !planMatch text && !ideaMatch text &&
    !jokeMatch text && !weatherMatch text && !timeMatch text &&
    !explainMatch text && !summaryMatch text

/-! ## Global case-insensitive keyword removal

`prompt.replace(/k1|k2|.../gi, "")`: scan left to right; at each
position try the alternatives in order and erase the first one that
matches, resuming after the erased text; otherwise keep the character
and move one position right. -/

/-- Case-insensitive literal match of `kw` at the head of `s`,
returning the remainder on success. -/
def stripKw : List Char → List Char → Option (List Char)
  | [], s => some s
  | _ :: _, [] => none
  | k :: ks, c :: cs => if lowerChar c == lowerChar k then stripKw ks cs else none

/-- Try the alternatives in regex order at the current position. -/
def firstStrip (kws : List (List Char)) (s : List Char) : Option (List Char) :=
  match kws with
  | [] => none
  | k :: rest =>
    match stripKw k s with
    | some r => some r
    | none => firstStrip rest s

/-- The global replace, driven by a structural fuel so that it
computes by kernel reduction.  Every step shortens the remaining text,
so the text's length is enough fuel.  (The length guard on a matched
remainder keeps the fuel invariant even for an empty alternative,
which never occurs in the two keyword lists below.) -/
def removeAllFuel (kws : List (List Char)) : Nat → List Char → List Char
  | _, [] => []
  | 0, s => s
  | fuel + 1, c :: rest =>
    match firstStrip kws (c :: rest) with
    | some r =>
      if r.length < rest.length + 1 then removeAllFuel kws fuel r
      else c :: removeAllFuel kws fuel rest
    | none => c :: removeAllFuel kws fuel rest

/-- The global replace itself. -/
def removeAllCI (kws : List (List Char)) (s : List Char) : List Char :=
  removeAllFuel kws s.length s

/-- Alternatives of `/plan|idea|ideas?|brainstorm|help/gi` (the
`ideas?` alternative is expanded; `idea` precedes it, so ordered
alternation lets `idea` win at any position where `ideas` starts). -/
def ideaKeywords : List (List Char) :=
  ["plan".data, "idea".data, "ideas".data, "brainstorm".data, "help".data]

/-- Alternatives of `/plan|schedule|timeline|roadmap/gi`. -/
def planKeywords : List (List Char) :=
  ["plan".data, "schedule".data, "timeline".data, "roadmap".data]

/-- Focus of the Idea branch, from `buildIdeasResponse`:
`prompt.replace(/plan|idea|ideas?|brainstorm|help/gi, "").trim()` —
note the bare `.trim()`, with no whitespace collapsing. -/
def ideaFocus (prompt : String) : String :=
  ⟨trimWs (removeAllCI ideaKeywords prompt.data)⟩

/-- Focus of the Plan branch, from `buildPlanResponse`:
`sanitize(prompt.replace(/plan|schedule|timeline|roadmap/gi, ""))`. -/
def planFocus (prompt : String) : String :=
  sanitize ⟨removeAllCI planKeywords prompt.data⟩

/-- Source: `buildIdeasResponse`. -/
def buildIdeasResponse (prompt : String) : String :=
  let focus := ideaFocus prompt
  let focusLine :=
    if focus.data.isEmpty then "Here are a few directions to explore:"
    else "Here are a few directions tailored to \"" ++ focus ++ "\":"
  focusLine ++ "\n\n1. **Quick Win** – Start with a small experiment you can finish in under an hour to validate the concept without a big investment.\n2. **Deep Dive** – Outline the larger objective, then break it into three milestones with owners, timelines, and success criteria.\n3. **Community Pulse** – Ask three people from your audience what they would expect. Their language will sharpen your copy and positioning.\n\nWant to unpack one of these further?"

/-- Source: `buildPlanResponse`. -/
def buildPlanResponse (prompt : String) : String :=
  let focus := planFocus prompt
  let subject := if focus.data.isEmpty then "" else " to shape " ++ focus
  "Here’s a simple structure" ++ subject ++ " you can follow:\n\n- **Clarify the outcome** – write one sentence about what “done” looks like.\n- **Identify constraints** – note time, budget, and any tools you already have.\n- **Draft the timeline** – split the work into morning/afternoon or weekly checkpoints.\n- **Add accountability** – schedule quick check-ins or reminders so momentum doesn’t fade.\n\nIf you’d like, I can turn this into a calendar-style checklist for you."

/-! ## Data model -/

/-- `type Role = "user" | "assistant"`. -/
inductive Role where
  | user
  | assistant
deriving DecidableEq

/-- The JSON name of a role. -/
def roleName : Role → String
  | .user => "user"
  | .assistant => "assistant"

/-- `type ChatMessage = { role: Role; content: string }`. -/
structure ChatMessage where
  role : Role
  content : String
deriving DecidableEq

/-- The `{ reply, suggestions }` object every branch returns. -/
structure ResponsePayload where
  reply : String
  suggestions : List String
deriving DecidableEq

/-- `const fallbackSuggestions = [...]`. -/
def fallbackSuggestions : List String :=
  ["What else can you help me with?",
    "Summarize our conversation so far.",
    "Give me a fresh idea to explore.",
    "Help me plan the next steps."]

/-! ## Summarizer -/

/-- `(entry, index) => `${index + 1}. ${...}`` over a list, starting at `i`. -/
def numberLines : Nat → List String → List String
  | _, [] => []
  | i, s :: rest => (Nat.repr i ++ ". " ++ s) :: numberLines (i + 1) rest

/-- `Array.prototype.join("\n")`. -/
def joinNL : List String → String
  | [] => ""
  | [s] => s
  | s :: rest => s ++ "\n" ++ joinNL rest

/-- The fixed zero-user-turn message of `summarizeConversation`. -/
def exploringMsg : String :=
  "You’ve mostly been exploring the assistant’s features so far."

/-- The non-empty-summary template of `summarizeConversation`. -/
def trackingMsg (lines : List String) : String :=
  "Here’s what I’m tracking:\n" ++ joinNL lines ++
    "\n\nReady whenever you are for a deeper dive."

/-- Source: `summarizeConversation` — filter to `role === "user"`,
`slice(-3)`, number from 1, sanitizing each content. -/
def summarizeConversation (history : List ChatMessage) : String :=
  let users := history.filter fun e => e.role == Role.user
  let important := numberLines 1 ((users.drop (users.length - 3)).map fun e => sanitize e.content)
  if important.isEmpty then exploringMsg else trackingMsg important

/-! ## The Responder -/

/-- The greeting branch payload. -/
def greetingPayload : ResponsePayload :=
  ⟨"Hey! 👋 I’m right here. Let me know what you’re working on or curious about and we’ll dive in together.",
    ["Help me map out my next project.",
      "Teach me something new in five minutes.",
      "Turn this idea into action steps."]⟩

/-- The thanks branch payload. -/
def thanksPayload : ResponsePayload :=
  ⟨"So glad that helped! Do you want to keep going, try a different angle, or wrap up with next steps?",
    ["Let’s build on that idea.",
      "What should I tackle next?",
      "Summarize what we achieved."]⟩

/-- The farewell branch payload. -/
def farewellPayload : ResponsePayload :=
  ⟨"Catch you later! I’ll be ready the moment you’re back and want to resume.",
    ["Draft a recap email for me.",
      "Share a quick productivity tip.",
      "Set up a follow-up checklist."]⟩

/-- The identity branch payload. -/
def identityPayload : ResponsePayload :=
  ⟨"I’m Chatmate—your on-demand collaborator for brainstorming, planning, and explaining ideas clearly. I combine structured thinking with a friendly tone so you can move faster.",
    ["Show me how you brainstorm.",
      "Help me plan something step-by-step.",
      "Summarize an article for me."]⟩

/-- The plan branch suggestions. -/
def planSuggestions : List String :=
  ["Convert that into a 7-day plan.",
    "List potential blockers I should watch out for.",
    "Suggest tools to stay on schedule."]

/-- The idea branch suggestions. -/
def ideaSuggestions : List String :=
  ["Expand on idea number two.",
    "Find an inspiring quote I can use.",
    "Outline the risks and mitigations."]

/-- The joke branch payload. -/
def jokePayload : ResponsePayload :=
  ⟨"Sure! Why did the developer bring a ladder to work? Because they heard the project was in the cloud. 😄 Want another one or should we get back to business?",
    ["Give me a motivational quote.",
      "Let’s get serious again.",
      "Share a brainstorming icebreaker."]⟩

/-- The weather branch payload. -/
def weatherPayload : ResponsePayload :=
  ⟨"I can’t check the live weather, but I can help you pack smarter: grab layers, keep an eye on the hourly forecast, and schedule a backup indoor activity just in case.",
    ["Plan a day trip itinerary.",
      "Help me pack efficiently.",
      "Create a rainy-day backup plan."]⟩

/-- The time branch reply around the rendered wall-clock `now`. -/
def timeReply (now : String) : String :=
  "It’s currently " ++ now ++ ". Want to carve out a plan for the next hour or set some checkpoints?"

/-- The time branch suggestions. -/
def timeSuggestions : List String :=
  ["Help me focus for the next 25 minutes.",
    "Break the next task into checkpoints.",
    "Plan my evening wind-down routine."]

/-- The explain branch payload. -/
def explainPayload : ResponsePayload :=
  ⟨"Let’s unpack that the simple way:\n\n1. Start with the big picture—what problem does it solve?\n2. Identify the core pieces involved.\n3. Walk through a real-world example.\n4. Finish with an action you can try on your own.\n\nTell me what you’re learning and I’ll tailor each step.",
    ["Give me an analogy to understand it.",
      "Quiz me with a quick check.",
      "Show me the pros and cons."]⟩

/-- The summary branch suggestions. -/
def summarySuggestions : List String :=
  ["Highlight key decisions.",
    "Outline next actions.",
    "Draft a message I can send to my team."]

/-- The expand follow-up branch payload. -/
def expandPayload : ResponsePayload :=
  ⟨"Let’s zoom in: what part would you like to develop—resources, timeline, or potential challenges? Give me a clue and I’ll sketch it out.",
    ["List potential challenges we might hit.",
      "Suggest resources that could help.",
      "Turn this into a longer-form outline."]⟩

/-- The generic fallback payload, embedding the sanitized input. -/
def fallbackPayload (prompt : String) : ResponsePayload :=
  ⟨"Here’s what I’m picking up: " ++ sanitize prompt ++
      ". I can help you clarify the goal, outline the steps, or find inspiration.\n\nLet me know which direction sounds best and we’ll move forward.",
    fallbackSuggestions⟩

/-- Fired by the final branch: the history holds an assistant turn and
the normalized input mentions "expand". -/
def expandFires (prompt : String) (history : List ChatMessage) : Bool :=
  (history.reverse.find? fun e => e.role == Role.assistant).isSome && expandMention prompt

/-- Source: `buildResponse` — the ordered first-match-wins dispatch.
The wall-clock rendering consumed by the time branch is the explicit
`now` parameter. -/
def buildResponse (now : String) (prompt : String) (history : List ChatMessage) :
    ResponsePayload :=
  if greetingMatch prompt then greetingPayload
  else if thanksMatch prompt then thanksPayload
  else if farewellMatch prompt then farewellPayload
  else if identityMatch prompt then identityPayload
  else if planMatch prompt then ⟨buildPlanResponse prompt, planSuggestions⟩
  else if ideaMatch prompt then ⟨buildIdeasResponse prompt, ideaSuggestions⟩
  else if jokeMatch prompt then jokePayload
  else if weatherMatch prompt then weatherPayload
  else if timeMatch prompt then ⟨timeReply now, timeSuggestions⟩
  else if explainMatch prompt then explainPayload
  else if summaryMatch prompt then ⟨summarizeConversation history, summarySuggestions⟩
  else if expandFires prompt history then expandPayload
  else fallbackPayload prompt

/-! ## The JSON level and the transport endpoint

`JSON.parse` can produce any of the values below.  Property access on
`null` throws a `TypeError`; on every other value it returns the
field (for objects that have it) or `undefined`.  The route handler's
`try/catch` turns any thrown error into the fixed 500 response, which
the `Except Unit` monad models. -/

/-- A parsed JSON value. -/
inductive JsonValue where
  | null
  | bool (b : Bool)
  | num (n : Int)
  | str (s : String)
  | arr (elems : List JsonValue)
  | obj (fields : List (String × JsonValue))

/-- Field lookup in a parsed object. -/
def lookupField (k : String) : List (String × JsonValue) → Option JsonValue
  | [] => none
  | (k', v) :: rest => if k' == k then some v else lookupField k rest

/-- JavaScript property access: throws on `null`, yields the field or
`undefined` (modelled as `none`) otherwise. -/
def jsGetField (v : JsonValue) (k : String) : Except Unit (Option JsonValue) :=
  match v with
  | .null => .error ()
  | .obj fields => .ok (lookupField k fields)
  | _ => .ok none

/-- JavaScript truthiness of a parsed JSON value. -/
def truthy : JsonValue → Bool
  | .null => false
  | .bool b => b
  | .num n => n != 0
  | .str s => !s.data.isEmpty
  | .arr _ => true
  | .obj _ => true

/-- Is this value `null`? -/
def isNull : JsonValue → Bool
  | .null => true
  | _ => false

/-- `entry.role === target` for a string `target` (a throwing
computation, because `entry` may be `null`). -/
def roleEquals (target : String) (e : JsonValue) : Except Unit Bool :=
  match jsGetField e "role" with
  | .error u => .error u
  | .ok (some (.str r)) => .ok (r == target)
  | .ok _ => .ok false

/-- The pure value of `entry.role === "user"` on a non-`null` entry. -/
def roleIsUser (e : JsonValue) : Bool :=
  match e with
  | .obj fields =>
    match lookupField "role" fields with
    | some (.str r) => r == "user"
    | _ => false
  | _ => false

/-- `array.find(entry => entry.role === target)` over an already
reversed list: evaluates the predicate left to right and stops at the
first hit, so a `null` sitting after the hit is never touched. -/
def findRoleAux (target : String) : List JsonValue → Except Unit (Option JsonValue)
  | [] => .ok none
  | e :: rest =>
    match roleEquals target e with
    | .error u => .error u
    | .ok true => .ok (some e)
    | .ok false => findRoleAux target rest

/-- `[...list].reverse().find(entry => entry.role === target)`. -/
def findRoleRev (target : String) (l : List JsonValue) : Except Unit (Option JsonValue) :=
  findRoleAux target l.reverse

/-- Reading `entry.content` for use as a string prompt: anything that
is not a string makes the subsequent `.toLowerCase()` (or `.trim()`)
call throw. -/
def contentString (e : JsonValue) : Except Unit String :=
  match jsGetField e "content" with
  | .error u => .error u
  | .ok (some (.str s)) => .ok s
  | .ok _ => .error ()

/-- `history.filter(entry => entry.role === target)`: the predicate is
evaluated on every element, so any `null` in the list throws. -/
def filterRole (target : String) : List JsonValue → Except Unit (List JsonValue)
  | [] => .ok []
  | e :: rest =>
    match roleEquals target e with
    | .error u => .error u
    | .ok b =>
      match filterRole target rest with
      | .error u => .error u
      | .ok tail => .ok (if b then e :: tail else tail)

/-- The contents of a list of entries, each of which must be a string
for `sanitize` (JavaScript `.trim()`) not to throw. -/
def contentsOf : List JsonValue → Except Unit (List String)
  | [] => .ok []
  | e :: rest =>
    match contentString e with
    | .error u => .error u
    | .ok s =>
      match contentsOf rest with
      | .error u => .error u
      | .ok tail => .ok (s :: tail)

/-- `summarizeConversation` applied to the raw JSON history the
endpoint passes through. -/
def summarizeJson (history : List JsonValue) : Except Unit String :=
  match filterRole "user" history with
  | .error u => .error u
  | .ok users =>
    match contentsOf (users.drop (users.length - 3)) with
    | .error u => .error u
    | .ok cs =>
      let important := numberLines 1 (cs.map sanitize)
      .ok (if important.isEmpty then exploringMsg else trackingMsg important)

/-- `buildResponse` applied to the raw JSON history the endpoint
passes through: identical dispatch, with the two history-reading
branches lifted to the throwing monad. -/
def buildResponseJson (now : String) (prompt : String) (history : List JsonValue) :
    Except Unit ResponsePayload :=
  if greetingMatch prompt then .ok greetingPayload
  else if thanksMatch prompt then .ok thanksPayload
  else if farewellMatch prompt then .ok farewellPayload
  else if identityMatch prompt then .ok identityPayload
  else if planMatch prompt then .ok ⟨buildPlanResponse prompt, planSuggestions⟩
  else if ideaMatch prompt then .ok ⟨buildIdeasResponse prompt, ideaSuggestions⟩
  else if jokeMatch prompt then .ok jokePayload
  else if weatherMatch prompt then .ok weatherPayload
  else if timeMatch prompt then .ok ⟨timeReply now, timeSuggestions⟩
  else if explainMatch prompt then .ok explainPayload
  else if summaryMatch prompt then
    match summarizeJson history with
    | .error u => .error u
    | .ok t => .ok ⟨t, summarySuggestions⟩
  else
    match findRoleRev "assistant" history with
    | .error u => .error u
    | .ok la =>
      .ok (if la.isSome && expandMention prompt then expandPayload else fallbackPayload prompt)

/-- The embedding of a well-formed message into JSON. -/
def ChatMessage.toJson (m : ChatMessage) : JsonValue :=
  .obj [("role", .str (roleName m.role)), ("content", .str m.content)]

/-- The fixed 400 response body. -/
def malformedPayload : ResponsePayload :=
  ⟨"I didn’t catch that request. Can you share it again in plain text?", fallbackSuggestions⟩

/-- The fixed "no user turn yet" response body. -/
def readyPayload : ResponsePayload :=
  ⟨"I’m ready when you are—drop a message and we’ll get rolling.", fallbackSuggestions⟩

/-- The fixed 500 response body produced by the `catch` arm. -/
def errorPayload : ResponsePayload :=
  ⟨"Something went sideways on my end. Give me a second and feel free to try again.", fallbackSuggestions⟩

/-- The validation test `!body || !Array.isArray(body.messages)`,
returning the messages array when it passes.  `!body` short-circuits,
so a `null` body is rejected without touching its properties; a truthy
non-object body has `body.messages === undefined`, which is not an
array. -/
def messagesArray? (body : JsonValue) : Option (List JsonValue) :=
  if truthy body then
    match body with
    | .obj fields =>
      match lookupField "messages" fields with
      | some (.arr elems) => some elems
      | _ => none
    | _ => none
  else none

/-- The body of the `try` block of `POST`, producing a status code and
a payload, or the thrown error. -/
def postTry (now : String) (body : JsonValue) : Except Unit (Nat × ResponsePayload) :=
  match messagesArray? body with
  | none => .ok (400, malformedPayload)
  | some ms =>
    match findRoleRev "user" ms with
    | .error u => .error u
    | .ok none => .ok (200, readyPayload)
    | .ok (some entry) =>
      match contentString entry with
      | .error u => .error u
      | .ok prompt =>
        match buildResponseJson now prompt ms with
        | .error u => .error u
        | .ok payload => .ok (200, payload)

/-- The whole `POST` handler on an already parsed body: the `catch`
arm turns any thrown error into the fixed 500 response. -/
def post (now : String) (body : JsonValue) : Nat × ResponsePayload :=
  match postTry now body with
  | .ok r => r
  | .error _ => (500, errorPayload)

/-! ## Properties of `sanitize`

`sanitize` first trims, then replaces every whitespace run by one
space; its image is exactly the strings with no leading or trailing
whitespace whose only whitespace is isolated single spaces, and it is
the identity there — which gives idempotence. -/

/-- The head, if any, is not whitespace. -/
def noLeadWs (l : List Char) : Prop :=
  ∀ c, l.head? = some c → isWs c = false

/-- The last character, if any, is not whitespace. -/
def noTrailWs (l : List Char) : Prop :=
  ∀ c, l.getLast? = some c → isWs c = false

/-- Fixed points of the whitespace collapse: every whitespace
character is a space whose successor is not whitespace. -/
def cleanRun : List Char → Bool
  | [] => true
  | [c] => !isWs c || c == ' '
  | c₁ :: c₂ :: rest => (!isWs c₁ || (c₁ == ' ' && !isWs c₂)) && cleanRun (c₂ :: rest)

theorem collapseWs_cons_not_ws {c : Char} (hc : isWs c = false) (l : List Char) :
    collapseWs (c :: l) = c :: collapseWs l := by
  cases l <;> simp [collapseWs, hc]

theorem collapseWs_ne_nil : ∀ {l : List Char}, l ≠ [] → collapseWs l ≠ []
  | [], h => absurd rfl h
  | [c], _ => by
    cases hc : isWs c <;> simp [collapseWs, hc]
  | c₁ :: c₂ :: rest, _ => by
    have ih := collapseWs_ne_nil (l := c₂ :: rest) (by simp)
    cases hc₁ : isWs c₁ <;> cases hc₂ : isWs c₂ <;> simp [collapseWs, hc₁, hc₂]
    exact ih

theorem cleanRun_collapseWs : ∀ l : List Char, cleanRun (collapseWs l) = true
  | [] => rfl
  | [c] => by cases hc : isWs c <;> simp [collapseWs, hc, cleanRun]
  | c₁ :: c₂ :: rest => by
    have ih := cleanRun_collapseWs (c₂ :: rest)
    cases hc₁ : isWs c₁
    · rw [collapseWs_cons_not_ws hc₁]
      rcases hl : collapseWs (c₂ :: rest) with _ | ⟨x, xs⟩
      · exact absurd hl (collapseWs_ne_nil (by simp))
      · rw [hl] at ih
        simpa [cleanRun, hc₁] using ih
    · cases hc₂ : isWs c₂
      · rw [show collapseWs (c₁ :: c₂ :: rest) = ' ' :: collapseWs (c₂ :: rest) by
          simp [collapseWs, hc₁, hc₂]]
        rw [collapseWs_cons_not_ws hc₂]
        rw [collapseWs_cons_not_ws hc₂] at ih
        have hsp : isWs ' ' = true := rfl
        simpa [cleanRun, hc₂, hsp] using ih
      · rw [show collapseWs (c₁ :: c₂ :: rest) = collapseWs (c₂ :: rest) by
          simp [collapseWs, hc₁, hc₂]]
        exact ih

theorem collapseWs_of_cleanRun : ∀ {l : List Char}, cleanRun l = true → collapseWs l = l
  | [], _ => rfl
  | [c], h => by
    cases hc : isWs c
    · simp [collapseWs, hc]
    · have hsp : c = ' ' := by
        simpa [cleanRun, hc] using h
      simp [collapseWs, hc, hsp]
  | c₁ :: c₂ :: rest, h => by
    cases hc₁ : isWs c₁
    · rw [collapseWs_cons_not_ws hc₁,
        collapseWs_of_cleanRun (by simpa [cleanRun, hc₁] using h)]
    · have h' : (c₁ == ' ' && !isWs c₂) = true ∧ cleanRun (c₂ :: rest) = true := by
        have := h
        simp only [cleanRun, hc₁, Bool.not_true, Bool.false_or, Bool.and_eq_true] at this
        exact ⟨by simp [this.1], this.2⟩
      have hsp : c₁ = ' ' := by
        have := h'.1
        simp only [Bool.and_eq_true, beq_iff_eq] at this
        exact this.1
      have hc₂ : isWs c₂ = false := by
        have := h'.1
        simp only [Bool.and_eq_true, Bool.not_eq_true'] at this
        exact this.2
      rw [show collapseWs (c₁ :: c₂ :: rest) = ' ' :: collapseWs (c₂ :: rest) by
          simp [collapseWs, hc₁, hc₂],
        collapseWs_of_cleanRun h'.2, hsp]

theorem head?_collapseWs {c : Char} (hc : isWs c = false) (l : List Char) :
    (collapseWs (c :: l)).head? = some c := by
  rw [collapseWs_cons_not_ws hc]
  rfl

theorem getLast?_collapseWs :
    ∀ {l : List Char} {c : Char}, l.getLast? = some c → isWs c = false →
      (collapseWs l).getLast? = some c
  | [], _, h, _ => by simp at h
  | [x], c, h, hc => by
    have hx : x = c := by simpa using h
    subst hx
    simp [collapseWs, hc]
  | c₁ :: c₂ :: rest, c, h, hc => by
    have h' : (c₂ :: rest).getLast? = some c := by
      rwa [List.getLast?_cons_cons] at h
    have ih := getLast?_collapseWs h' hc
    have htail : ∀ x : Char, (x :: collapseWs (c₂ :: rest)).getLast? = some c := by
      intro x
      rcases hl : collapseWs (c₂ :: rest) with _ | ⟨y, ys⟩
      · exact absurd hl (collapseWs_ne_nil (by simp))
      · rw [hl] at ih
        rw [List.getLast?_cons_cons]
        exact ih
    cases hc₁ : isWs c₁
    · rw [collapseWs_cons_not_ws hc₁]
      exact htail c₁
    · cases hc₂ : isWs c₂
      · rw [show collapseWs (c₁ :: c₂ :: rest) = ' ' :: collapseWs (c₂ :: rest) by
          simp [collapseWs, hc₁, hc₂]]
        exact htail ' '
      · rw [show collapseWs (c₁ :: c₂ :: rest) = collapseWs (c₂ :: rest) by
          simp [collapseWs, hc₁, hc₂]]
        exact ih

theorem noLeadWs_collapseWs {l : List Char} (h : noLeadWs l) : noLeadWs (collapseWs l) := by
  cases l with
  | nil => intro c hc; simp [collapseWs] at hc
  | cons x rest =>
    have hx : isWs x = false := h x rfl
    intro c hc
    rw [head?_collapseWs hx] at hc
    cases hc
    exact hx

theorem noTrailWs_collapseWs {l : List Char} (h : noTrailWs l) : noTrailWs (collapseWs l) := by
  rcases hl : l.getLast? with _ | c
  · intro c hc
    cases l with
    | nil => simp [collapseWs] at hc
    | cons x rest => simp [List.getLast?_eq_none_iff] at hl
  · intro c' hc'
    have := getLast?_collapseWs hl (h c hl)
    rw [this] at hc'
    cases hc'
    exact h c hl

theorem noLeadWs_dropWhile (l : List Char) : noLeadWs (l.dropWhile isWs) := by
  intro c hc
  have := List.head?_dropWhile_not isWs l
  rw [hc] at this
  exact this

theorem getLast?_dropWhile_of_ne_nil {p : Char → Bool} :
    ∀ l : List Char, l.dropWhile p ≠ [] → (l.dropWhile p).getLast? = l.getLast?
  | [], h => absurd rfl h
  | x :: rest, h => by
    cases hx : p x
    · rw [List.dropWhile_cons, if_neg (by simp [hx])]
    · rw [List.dropWhile_cons, if_pos (by simp [hx])] at h ⊢
      have hrest : rest ≠ [] := by
        intro he
        exact h (by simp [he, List.dropWhile])
      rcases hr : rest with _ | ⟨y, ys⟩
      · exact absurd hr hrest
      · rw [← hr, getLast?_dropWhile_of_ne_nil rest h, hr, List.getLast?_cons_cons]

theorem noLeadWs_trimWs (l : List Char) : noLeadWs (trimWs l) := by
  intro c hc
  unfold trimWs at hc
  rw [List.head?_reverse] at hc
  have hne : (l.dropWhile isWs).reverse.dropWhile isWs ≠ [] := by
    intro he
    rw [he] at hc
    simp at hc
  rw [getLast?_dropWhile_of_ne_nil _ hne, List.getLast?_reverse] at hc
  exact noLeadWs_dropWhile l c hc

theorem noTrailWs_trimWs (l : List Char) : noTrailWs (trimWs l) := by
  intro c hc
  unfold trimWs at hc
  rw [List.getLast?_reverse] at hc
  exact noLeadWs_dropWhile (l.dropWhile isWs).reverse c hc

theorem dropWhile_of_noLeadWs {l : List Char} (h : noLeadWs l) : l.dropWhile isWs = l := by
  cases l with
  | nil => rfl
  | cons x rest => rw [List.dropWhile_cons, if_neg (by simp [h x rfl])]

theorem trimWs_of_no_edge_ws {l : List Char} (h₁ : noLeadWs l) (h₂ : noTrailWs l) :
    trimWs l = l := by
  unfold trimWs
  rw [dropWhile_of_noLeadWs h₁]
  have : noLeadWs l.reverse := by
    intro c hc
    rw [List.head?_reverse] at hc
    exact h₂ c hc
  rw [dropWhile_of_noLeadWs this, List.reverse_reverse]

/-- `sanitize` restated on character lists. -/
theorem sanitize_data (s : String) : (sanitize s).data = collapseWs (trimWs s.data) := rfl

/-- `sanitize` is idempotent. -/
theorem sanitize_idem (s : String) : sanitize (sanitize s) = sanitize s := by
  have h₁ : noLeadWs (collapseWs (trimWs s.data)) :=
    noLeadWs_collapseWs (noLeadWs_trimWs s.data)
  have h₂ : noTrailWs (collapseWs (trimWs s.data)) :=
    noTrailWs_collapseWs (noTrailWs_trimWs s.data)
  show String.mk (collapseWs (trimWs (collapseWs (trimWs s.data)))) = String.mk _
  rw [trimWs_of_no_edge_ws h₁ h₂, collapseWs_of_cleanRun (cleanRun_collapseWs _)]

/-! ## Well-formed histories never make the JSON level throw -/

theorem roleEquals_toJson (target : String) (m : ChatMessage) :
    roleEquals target m.toJson = .ok (roleName m.role == target) := rfl

theorem contentString_toJson (m : ChatMessage) :
    contentString m.toJson = .ok m.content := rfl

theorem roleName_user_beq (m : ChatMessage) :
    (roleName m.role == "user") = (m.role == Role.user) := by
  cases m.role <;> rfl

theorem roleName_assistant_beq (m : ChatMessage) :
    (roleName m.role == "assistant") = (m.role == Role.assistant) := by
  cases m.role <;> rfl

theorem findRoleAux_toJson (target : String) :
    ∀ l : List ChatMessage,
      findRoleAux target (l.map ChatMessage.toJson) =
        .ok ((l.find? fun m => roleName m.role == target).map ChatMessage.toJson)
  | [] => rfl
  | m :: rest => by
    have ih := findRoleAux_toJson target rest
    simp only [List.map_cons, findRoleAux, roleEquals_toJson]
    cases h : (roleName m.role == target) with
    | false => simp [List.find?_cons, h, ih]
    | true => simp [List.find?_cons, h]

theorem findRoleRev_user_toJson (msgs : List ChatMessage) :
    findRoleRev "user" (msgs.map ChatMessage.toJson) =
      .ok ((msgs.reverse.find? fun m => m.role == Role.user).map ChatMessage.toJson) := by
  unfold findRoleRev
  rw [← List.map_reverse, findRoleAux_toJson,
    show (fun m : ChatMessage => roleName m.role == "user") = fun m => m.role == Role.user
      from funext fun m => roleName_user_beq m]

theorem findRoleRev_assistant_toJson (msgs : List ChatMessage) :
    findRoleRev "assistant" (msgs.map ChatMessage.toJson) =
      .ok ((msgs.reverse.find? fun m => m.role == Role.assistant).map ChatMessage.toJson) := by
  unfold findRoleRev
  rw [← List.map_reverse, findRoleAux_toJson,
    show (fun m : ChatMessage => roleName m.role == "assistant") =
        fun m => m.role == Role.assistant
      from funext fun m => roleName_assistant_beq m]

theorem filterRole_user_toJson :
    ∀ l : List ChatMessage,
      filterRole "user" (l.map ChatMessage.toJson) =
        .ok ((l.filter fun m => m.role == Role.user).map ChatMessage.toJson)
  | [] => rfl
  | m :: rest => by
    have ih := filterRole_user_toJson rest
    simp only [List.map_cons, filterRole, roleEquals_toJson, ih, roleName_user_beq]
    cases h : (m.role == Role.user) <;> simp [List.filter_cons, h]

theorem contentsOf_toJson :
    ∀ l : List ChatMessage,
      contentsOf (l.map ChatMessage.toJson) = .ok (l.map ChatMessage.content)
  | [] => rfl
  | m :: rest => by
    have ih := contentsOf_toJson rest
    simp [contentsOf, contentString_toJson, ih]

theorem summarizeJson_toJson (msgs : List ChatMessage) :
    summarizeJson (msgs.map ChatMessage.toJson) = .ok (summarizeConversation msgs) := by
  unfold summarizeJson summarizeConversation
  rw [filterRole_user_toJson]
  simp only [List.length_map, ← List.map_drop, contentsOf_toJson, List.map_map]
  rfl

theorem buildResponseJson_toJson (now prompt : String) (msgs : List ChatMessage) :
    buildResponseJson now prompt (msgs.map ChatMessage.toJson) =
      .ok (buildResponse now prompt msgs) := by
  unfold buildResponseJson buildResponse
  cases h₁ : greetingMatch prompt
  · cases h₂ : thanksMatch prompt
    · cases h₃ : farewellMatch prompt
      · cases h₄ : identityMatch prompt
        · cases h₅ : planMatch prompt
          · cases h₆ : ideaMatch prompt
            · cases h₇ : jokeMatch prompt
              · cases h₈ : weatherMatch prompt
                · cases h₉ : timeMatch prompt
                  · cases h₁₀ : explainMatch prompt
                    · cases h₁₁ : summaryMatch prompt
                      · rw [findRoleRev_assistant_toJson]
                        cases hf : msgs.reverse.find? fun e => e.role == Role.assistant
                        · simp [expandFires, hf]
                        · simp [expandFires, hf]
                      · rw [summarizeJson_toJson]
                        rfl
                    · rfl
                  · rfl
                · rfl
              · rfl
            · rfl
          · rfl
        · rfl
      · rfl
    · rfl
  · rfl

/-! ## Endpoint helper lemmas -/

theorem roleEquals_user_of_not_null {e : JsonValue} (h : isNull e = false) :
    roleEquals "user" e = .ok (roleIsUser e) := by
  cases e with
  | null => simp [isNull] at h
  | obj fields =>
    simp only [roleEquals, jsGetField, roleIsUser]
    cases hlk : lookupField "role" fields with
    | none => rfl
    | some v => cases v <;> rfl
  | bool b => rfl
  | num n => rfl
  | str s => rfl
  | arr es => rfl

theorem findRoleAux_user_none :
    ∀ l : List JsonValue, (∀ e ∈ l, isNull e = false ∧ roleIsUser e = false) →
      findRoleAux "user" l = .ok none
  | [], _ => rfl
  | e :: rest, h => by
    have he := h e (by simp)
    have ih := findRoleAux_user_none rest fun x hx => h x (by simp [hx])
    simp only [findRoleAux, roleEquals_user_of_not_null he.1, he.2]
    exact ih

/-- `slice(-3)` described as the reversal of the first three of the
reversal: the last `n` elements in order. -/
theorem drop_length_sub_eq_reverse_take {α : Type} (l : List α) (n : Nat) :
    l.drop (l.length - n) = (l.reverse.take n).reverse :=
  List.rtake_eq_reverse_take_reverse l n

theorem numberLines_eq_nil_iff (i : Nat) (l : List String) :
    numberLines i l = [] ↔ l = [] := by
  cases l <;> simp [numberLines]

/-! ## Dispatch helper lemmas -/

theorem noneOfEleven_iff (text : String) :
    noneOfEleven text = true ↔
      greetingMatch text = false ∧ thanksMatch text = false ∧ farewellMatch text = false ∧
        identityMatch text = false ∧ planMatch text = false ∧ ideaMatch text = false ∧
        jokeMatch text = false ∧ weatherMatch text = false ∧ timeMatch text = false ∧
        explainMatch text = false ∧ summaryMatch text = false := by
  simp [noneOfEleven, Bool.and_eq_true, Bool.not_eq_true', and_assoc]

theorem buildResponse_of_noneOfEleven {prompt : String} (h : noneOfEleven prompt = true)
    (now : String) (history : List ChatMessage) :
    buildResponse now prompt history =
      if expandFires prompt history then expandPayload else fallbackPayload prompt := by
  obtain ⟨h₁, h₂, h₃, h₄, h₅, h₆, h₇, h₈, h₉, h₁₀, h₁₁⟩ := (noneOfEleven_iff prompt).1 h
  unfold buildResponse
  simp [h₁, h₂, h₃, h₄, h₅, h₆, h₇, h₈, h₉, h₁₀, h₁₁]

/-! ## The claims -/

/-- C1, counterexample: the input "hey thanks for the plan" satisfies
both the thanks predicate and the plan predicate, yet `buildResponse`
returns the greeting branch's payload (the greeting predicate is
tested even earlier), so "for any input text that satisfies both the
thanks predicate and the plan predicate, the Responder returns the
Thanks branch's reply" fails as stated. -/
theorem claim1_counterexample :
    thanksMatch "hey thanks for the plan" = true ∧
      planMatch "hey thanks for the plan" = true ∧
      buildResponse "12:00" "hey thanks for the plan" [] = greetingPayload ∧
      greetingPayload ≠ thanksPayload :=
  ⟨by decide, by decide, by decide, by decide⟩

/-- C1, amended: for any input that satisfies the thanks predicate and
the plan predicate and not the (earlier) greeting predicate, the
Responder returns the Thanks branch's payload, not the Plan branch's,
because the thanks predicate is tested before the plan predicate. -/
theorem claim1_thanks_before_plan (now prompt : String) (msgs : List ChatMessage)
    (hg : greetingMatch prompt = false) (ht : thanksMatch prompt = true)
    (_hp : planMatch prompt = true) :
    buildResponse now prompt msgs = thanksPayload := by
  unfold buildResponse
  simp [hg, ht]

/-- C1, witness: the amended theorem at the input "thanks for the
plan", which satisfies thanks and plan but not greeting. -/
theorem claim1_witness :
    buildResponse "12:00" "thanks for the plan" [] = thanksPayload :=
  claim1_thanks_before_plan "12:00" "thanks for the plan" []
    (by decide) (by decide) (by decide)

/-- C4: the Responder is total.  First, on every well-formed input the
JavaScript-level computation (where property accesses and string
method calls can throw) returns `Except.ok` of the pure payload — it
never fails.  Second, an input matching no dispatch predicate (the
eleven regex tests and the expand follow-up condition) falls through
to the generic fallback payload. -/
theorem claim4_responder_total :
    (∀ (now prompt : String) (msgs : List ChatMessage),
        buildResponseJson now prompt (msgs.map ChatMessage.toJson) =
          .ok (buildResponse now prompt msgs)) ∧
      ∀ (now prompt : String) (msgs : List ChatMessage),
        noneOfEleven prompt = true → expandFires prompt msgs = false →
          buildResponse now prompt msgs = fallbackPayload prompt := by
  refine ⟨buildResponseJson_toJson, fun now prompt msgs h hf => ?_⟩
  rw [buildResponse_of_noneOfEleven h]
  simp [hf]

/-- C4, witness: the empty input and a whitespace-only input match no
predicate and produce the fallback payload. -/
theorem claim4_witness :
    buildResponse "12:00" "" [] = fallbackPayload "" ∧
      buildResponse "12:00" "   " [] = fallbackPayload "   " :=
  ⟨claim4_responder_total.2 "12:00" "" [] (by decide) (by decide),
    claim4_responder_total.2 "12:00" "   " [] (by decide) (by decide)⟩

/-- C7: any input matching the greeting predicate produces the fixed
greeting payload with exactly 3 suggestions, for every history. -/
theorem claim7_greeting (now prompt : String) (msgs : List ChatMessage)
    (h : greetingMatch prompt = true) :
    buildResponse now prompt msgs = greetingPayload ∧
      (buildResponse now prompt msgs).suggestions.length = 3 := by
  have hb : buildResponse now prompt msgs = greetingPayload := by
    unfold buildResponse
    simp [h]
  exact ⟨hb, by rw [hb]; rfl⟩

/-- C7, witness: "good morning" with a non-trivial history. -/
theorem claim7_witness :
    buildResponse "12:00" "good morning" [⟨.user, "a"⟩, ⟨.assistant, "b"⟩] = greetingPayload ∧
      (buildResponse "12:00" "good morning" [⟨.user, "a"⟩, ⟨.assistant, "b"⟩]).suggestions.length
        = 3 :=
  claim7_greeting "12:00" "good morning" [⟨.user, "a"⟩, ⟨.assistant, "b"⟩] (by decide)

/-- C8: `sanitize` is idempotent, and on any input matching no
dispatch predicate the fallback reply embeds the sanitized input text
verbatim inside the generic template, with the default suggestions. -/
theorem claim8_fallback_sanitize :
    (∀ s : String, sanitize (sanitize s) = sanitize s) ∧
      ∀ (now prompt : String) (msgs : List ChatMessage),
        noneOfEleven prompt = true → expandFires prompt msgs = false →
          (buildResponse now prompt msgs).reply =
            "Here’s what I’m picking up: " ++ sanitize prompt ++
              ". I can help you clarify the goal, outline the steps, or find inspiration.\n\nLet me know which direction sounds best and we’ll move forward." ∧
          (buildResponse now prompt msgs).suggestions = fallbackSuggestions := by
  refine ⟨sanitize_idem, fun now prompt msgs h hf => ?_⟩
  rw [buildResponse_of_noneOfEleven h]
  simp [hf, fallbackPayload]

/-- C8, witness: " xyzzy   quux " matches no predicate; its sanitized
form "xyzzy quux" appears verbatim in the fallback reply. -/
theorem claim8_witness :
    (buildResponse "12:00" " xyzzy   quux " []).reply =
      "Here’s what I’m picking up: xyzzy quux. I can help you clarify the goal, outline the steps, or find inspiration.\n\nLet me know which direction sounds best and we’ll move forward." ∧
      (buildResponse "12:00" " xyzzy   quux " []).suggestions = fallbackSuggestions := by
  have h := claim8_fallback_sanitize.2 "12:00" " xyzzy   quux " [] (by decide) (by decide)
  exact ⟨by rw [h.1]; decide, h.2⟩

/-- C9: once none of the eleven earlier predicates matched, the expand
follow-up fires exactly when the history holds an assistant turn and
the normalized input contains "expand"; otherwise the generic fallback
is produced. -/
theorem claim9_expand_followup (now prompt : String) (msgs : List ChatMessage)
    (h : noneOfEleven prompt = true) :
    buildResponse now prompt msgs =
      if (msgs.reverse.find? fun e => e.role == Role.assistant).isSome
          && expandMention prompt
      then expandPayload else fallbackPayload prompt :=
  buildResponse_of_noneOfEleven h now msgs

/-- C9, witness: an otherwise-unmatched "expand" input fires the
follow-up with an assistant turn in the history, and falls through to
the fallback without one. -/
theorem claim9_witness :
    buildResponse "12:00" "expand" [⟨.assistant, "y"⟩] = expandPayload ∧
      buildResponse "12:00" "expand" [] = fallbackPayload "expand" := by
  constructor
  · rw [claim9_expand_followup "12:00" "expand" [⟨.assistant, "y"⟩] (by decide)]
    decide
  · rw [claim9_expand_followup "12:00" "expand" [] (by decide)]
    decide

/-- C2, counterexample: the Idea branch's focus extraction does not
collapse internal whitespace (the source only calls `.trim()` there),
and neither extractor is idempotent, because the single left-to-right
replacement pass can splice a keyword together out of removed halves
("plplanan" becomes "plan", which a second pass erases). -/
theorem claim2_counterexample :
    ideaFocus "idea  a  b" = "a  b" ∧ ("a  b" : String) ≠ "a b" ∧
      planFocus (planFocus "plplanan") ≠ planFocus "plplanan" :=
  ⟨by decide, by decide, by decide⟩

/-- C2, amended: the Plan branch's focus extraction removes all
case-insensitive occurrences of its keywords, collapses whitespace
runs and trims (so the example yields exactly "my trip"), and its
results are `sanitize`-normal; the Idea branch's focus extraction
removes its keywords and only trims. -/
theorem claim2_focus_extraction :
    planFocus "  plan   my    trip " = "my trip" ∧
      (∀ p : String, sanitize (planFocus p) = planFocus p) ∧
      ideaFocus "idea  a  b" = "a  b" :=
  ⟨by decide, fun p => sanitize_idem ⟨removeAllCI planKeywords p.data⟩, by decide⟩

/-- C3: the Summarizer keeps the user-role entries, in order, numbered
from 1, restricted to the last three (the reversal of the first three
of the reversal), and returns the fixed exploring message when there
are none; on the five-message example it lists exactly b, c, d as
1., 2., 3. -/
theorem claim3_summarizer :
    (∀ history : List ChatMessage,
        summarizeConversation history =
          if (history.filter fun e => e.role == Role.user).isEmpty then exploringMsg
          else
            trackingMsg (numberLines 1
              ((((history.filter fun e => e.role == Role.user).reverse.take 3).reverse).map
                fun e => sanitize e.content))) ∧
      summarizeConversation
          [⟨.user, "a"⟩, ⟨.assistant, "x"⟩, ⟨.user, "b"⟩, ⟨.user, "c"⟩, ⟨.user, "d"⟩] =
        "Here’s what I’m tracking:\n1. b\n2. c\n3. d\n\nReady whenever you are for a deeper dive." := by
  constructor
  · intro history
    unfold summarizeConversation
    rw [← drop_length_sub_eq_reverse_take]
    set users := history.filter fun e => e.role == Role.user with hu
    by_cases hemp : users = []
    · simp [hemp, numberLines]
    · have hne : users.drop (users.length - 3) ≠ [] := by
        rw [ne_eq, List.drop_eq_nil_iff]
        intro hle
        have hz : users.length = 0 := by omega
        exact hemp (List.length_eq_zero.mp hz)
      have himp :
          numberLines 1 ((users.drop (users.length - 3)).map fun e => sanitize e.content)
            ≠ [] := by
        rw [ne_eq, numberLines_eq_nil_iff]
        simpa using hne
      simp only [List.map_drop, List.length_map] at himp
      simp [List.isEmpty_iff, hemp, himp]
  · decide

/-- C5: whenever the request body fails the validation
`!body || !Array.isArray(body.messages)`, the endpoint answers 400
with the fixed malformed-request payload (whose suggestions are the
default set), without reaching the Responder. -/
theorem claim5_malformed_request (now : String) (body : JsonValue)
    (h : messagesArray? body = none) :
    post now body = (400, malformedPayload) := by
  unfold post postTry
  rw [h]

/-- C5, witness: the payload `{messages: "not-an-array"}`. -/
theorem claim5_witness :
    post "12:00" (.obj [("messages", .str "not-an-array")]) = (400, malformedPayload) :=
  claim5_malformed_request "12:00" (.obj [("messages", .str "not-an-array")]) rfl

/-- C6: on a well-formed message array, the endpoint answers 200 with
the fixed ready payload when no entry has role user, and otherwise 200
with the Responder's payload for the most recent user entry's text and
the full history. -/
theorem claim6_endpoint_dispatch (now : String) (msgs : List ChatMessage) :
    post now (.obj [("messages", .arr (msgs.map ChatMessage.toJson))]) =
      match msgs.reverse.find? fun m => m.role == Role.user with
      | none => (200, readyPayload)
      | some m => (200, buildResponse now m.content msgs) := by
  have hma :
      messagesArray? (.obj [("messages", .arr (msgs.map ChatMessage.toJson))]) =
        some (msgs.map ChatMessage.toJson) := rfl
  simp only [post, postTry, hma]
  rw [findRoleRev_user_toJson]
  cases hf : msgs.reverse.find? fun m => m.role == Role.user with
  | none => rfl
  | some m => simp [contentString_toJson, buildResponseJson_toJson]

/-- C10, counterexample: the array `[null]` passes validation, but the
`find` callback's property access `entry.role` throws on `null`, so
the endpoint answers 500 — not 200 as the claim requires. -/
theorem claim10_counterexample :
    post "12:00" (.obj [("messages", .arr [JsonValue.null])]) = (500, errorPayload) ∧
      (post "12:00" (.obj [("messages", .arr [JsonValue.null])])).fst ≠ 200 :=
  ⟨rfl, by decide⟩

/-- C10, amended: for every payload whose `messages` field is an
array, the endpoint indeed never answers 400 (the status is 200 or
500); and when every element is non-`null` (so property access cannot
throw) and none carries role "user", it answers 200 with the ready
payload. -/
theorem claim10_array_elements (now : String) (body : JsonValue) (ms : List JsonValue)
    (hm : messagesArray? body = some ms) :
    ((post now body).fst = 200 ∨ (post now body).fst = 500) ∧
      ((∀ e ∈ ms, isNull e = false ∧ roleIsUser e = false) →
        post now body = (200, readyPayload)) := by
  constructor
  · simp only [post, postTry, hm]
    cases hfr : findRoleRev "user" ms with
    | error u => simp [hfr]
    | ok o =>
      cases o with
      | none => simp [hfr]
      | some entry =>
        cases hcs : contentString entry with
        | error u => simp [hfr, hcs]
        | ok prompt =>
          cases hbr : buildResponseJson now prompt ms with
          | error u => simp [hfr, hcs, hbr]
          | ok payload => simp [hfr, hcs, hbr]
  · intro h
    have hfind : findRoleRev "user" ms = .ok none := by
      unfold findRoleRev
      exact findRoleAux_user_none ms.reverse fun e he => h e (List.mem_reverse.mp he)
    simp only [post, postTry, hm, hfind]

/-- C10, witness: an array of a number and an assistant object — no
`null`, no user role — answers 200 ready. -/
theorem claim10_witness :
    post "12:00" (.obj [("messages",
        .arr [.num 7, .obj [("role", .str "assistant"), ("content", .str "hi")]])]) =
      (200, readyPayload) :=
  (claim10_array_elements "12:00"
      (.obj [("messages",
        .arr [.num 7, .obj [("role", .str "assistant"), ("content", .str "hi")]])])
      [.num 7, .obj [("role", .str "assistant"), ("content", .str "hi")]] rfl).2
    (by decide)

end Chatmate
